import Mathlib

/-!
Shallow embedding of `src/project1.py` (a FastAPI service that turns task
requests into provisioned GitHub repositories) and verification of its
specification claims.

External effects (HTTP requests, base64/utf-8 codecs, the GitHub client) are
modelled by oracle functions collected in an `Env` structure; the sequence of
outbound side effects performed by a handler is made observable as a `List Call`
trace.  Python strings are modelled as Lean strings restricted to their ASCII
behaviour (every input exercised by the claims is ASCII).
-/

namespace Project1

/-! ### Character-level helpers (Python `str.lower`, `str.isalnum` on ASCII) -/

/-- Python `str.lower`, character by character.  Faithful to Python exactly on
the ASCII range (codes at most 127): Python also lowercases non-ASCII cased
letters, which this model leaves unchanged, so statements whose truth depends
on non-ASCII characters must carry an explicit ASCII hypothesis. -/
def pyLower (c : Char) : Char :=
  if 65 ≤ c.toNat ∧ c.toNat ≤ 90 then Char.ofNat (c.toNat + 32) else c

/-- Python `str.isalnum`, character by character.  Faithful to Python exactly
on the ASCII range (codes at most 127): digit, uppercase or lowercase letter.
Python additionally accepts non-ASCII alphanumerics (such as accented
letters), which this model rejects, so statements whose truth depends on
non-ASCII characters must carry an explicit ASCII hypothesis. -/
def pyIsAlnum (c : Char) : Bool :=
  (48 ≤ c.toNat && c.toNat ≤ 57) || (65 ≤ c.toNat && c.toNat ≤ 90) ||
    (97 ≤ c.toNat && c.toNat ≤ 122)

/-- Characters allowed by the filesystem/URL-safety claim: lowercase letter,
digit, dash (code 45) or underscore (code 95). -/
def isSafeChar (c : Char) : Bool :=
  (97 ≤ c.toNat && c.toNat ≤ 122) || (48 ≤ c.toNat && c.toNat ≤ 57) ||
    c.toNat = 45 || c.toNat = 95

/-- Python `email.split("@")[0]`: the part of the string before the first `@`
(the whole string when no `@` occurs). -/
def localPart (email : String) : List Char :=
  email.toList.takeWhile (fun c => c ≠ '@')

/-! ### `deterministic_repo_name` (project1.py lines 58-62) -/

/-- `deterministic_repo_name(email, task)`:
`user = email.split("@")[0].replace(".", "-").lower()` and
`task_clean = "".join(c if c.isalnum() or c in "-_" else "-" for c in task.lower())[:40]`,
returning `f"{user}-{task_clean}"`.  The single-character `replace` and `lower`
are modelled per character. -/
def deterministic_repo_name (email task : String) : String :=
  (((localPart email).map (fun c => pyLower (if c = '.' then '-' else c))).asString)
    ++ "-"
    ++ ((((task.toList.map pyLower).map
          (fun c => if pyIsAlnum c || c = '-' || c = '_' then c else '-')).take 40).asString)

/-- User segment as the specification words it: local part of the email,
lowercased, then `.` replaced by `-`. -/
def resolveSpecUser (email : String) : List Char :=
  ((localPart email).map pyLower).map (fun c => if c = '.' then '-' else c)

/-- Task segment as the specification words it: the task name lowercased with
every character that is not alphanumeric, `-` or `_` replaced by `-`, truncated
to 40 characters. -/
def resolveSpecTask (task : String) : List Char :=
  (task.toList.map (fun c =>
    if pyIsAlnum (pyLower c) || pyLower c = '-' || pyLower c = '_' then pyLower c
    else '-')).take 40

/-- The resolver exactly as the specification claims it, including the claimed
edge case: when the normalized task segment is empty the identity is the user
segment alone, with no trailing separator. -/
def resolveSpec (email task : String) : String :=
  if resolveSpecTask task = [] then (resolveSpecUser email).asString
  else (resolveSpecUser email).asString ++ "-" ++ (resolveSpecTask task).asString

/-- The resolver with the edge case amended to what the code does: the two
segments are always joined by `-`, so an empty task segment yields a trailing
separator. -/
def resolveSpecAmended (email task : String) : String :=
  (resolveSpecUser email).asString ++ "-" ++ (resolveSpecTask task).asString

/-! ### Data model -/

/-- An attachment descriptor `{name, url}`; `name` is `att.get("name")`
(absent key modelled as `none`). -/
structure Attachment where
  name : Option String
  url : String
  deriving DecidableEq

/-- The `/task` request body (class `TaskRequest`). -/
structure TaskRequest where
  email : String
  secret : String
  task : String
  round : Int
  nonce : String
  brief : String
  checks : List String
  evaluation_url : String
  attachments : List Attachment
  deriving DecidableEq

/-- A raised `HTTPException(status_code, detail)`. -/
structure HTTPExceptionModel where
  status_code : Nat
  detail : String
  deriving DecidableEq

/-- The JSON object returned by a successful `/task` call. -/
structure TaskResponse where
  status : String
  message : String
  repo_url : String
  pages_url : Option String
  deriving DecidableEq

/-- Observable outcome of one `/task` request: a normal response, an
`HTTPException` converted by the framework into an error response, or an
unhandled exception escaping the handler. -/
inductive TaskOutcome where
  | response (r : TaskResponse)
  | httpError (e : HTTPExceptionModel)
  | crash
  deriving DecidableEq

/-- One outbound side effect of the handler, in program order. -/
inductive Call where
  | recordTask (key : String × String × Int × String)
  | logAppend
  | getRepo (name : String)
  | createRepo (name : String)
  | writeFile (path : String) (content : String)
  | pagesEnable (branch : String) (path : String)
  | pagesRead
  | listCommits
  | evalPost
  | fetch (url : String)
  deriving DecidableEq

/-- Oracles for everything outside the process: configuration, codecs and the
network.  `none` models a raised exception of the corresponding library call. -/
structure Env where
  secret : String
  username : String
  year : String
  b64decode : String → Option (List Nat)
  utf8decode : List Nat → Option String
  latin1decode : List Nat → String
  httpGet : String → Option (Nat × String)
  repoExists : String → Bool
  pagesPost : String → Option Nat
  pagesGet : Option (Nat × Option (Option String))
  commits : Nat → Option (Option String)
  evalResp : Nat → Option Nat

/-! ### FileSet as an insertion-ordered association list (a Python dict) -/

/-- Python dict assignment `files[k] = v`: update in place when the key exists,
append otherwise. -/
def insertFile : List (String × String) → String → String → List (String × String)
  | [], k, v => [(k, v)]
  | (k₁, v₁) :: rest, k, v =>
    if k₁ = k then (k₁, v) :: rest else (k₁, v₁) :: insertFile rest k v

/-- Python dict lookup `files.get(k)`. -/
def lookupFile : List (String × String) → String → Option String
  | [], _ => none
  | (k₁, v₁) :: rest, k => if k₁ = k then some v₁ else lookupFile rest k

/-- The key list of a FileSet, in insertion order. -/
def keysOf (fs : List (String × String)) : List String := fs.map Prod.fst

/-! ### `decode_attachment_to_files` (project1.py lines 136-164) -/

/-- Python `url.startswith("data:")`. -/
def startsWithData (url : String) : Bool := url.toList.take 5 = ("data:").toList

/-- Python `url.split(",", 1)[1]`: everything after the first comma;
`none` models the `IndexError` raised when the url has no comma. -/
def splitComma (url : String) : Option String :=
  if (',') ∈ url.toList then
    some (((url.toList.dropWhile (fun c => c ≠ ',')).tail).asString)
  else none

/-- The entry one attachment contributes to the file mapping, `none` when the
loop body skips it (missing name or url, malformed data URI, base64 error,
fetch exception or fetch status other than 200). -/
def attachmentEntry (env : Env) (att : Attachment) : Option (String × String) :=
  match att.name with
  | none => none
  | some name =>
    if name = "" ∨ att.url = "" then none
    else if startsWithData att.url then
      match splitComma att.url with
      | none => none
      | some encoded =>
        match env.b64decode encoded with
        | none => none
        | some bytes =>
          match env.utf8decode bytes with
          | some text => some (name, text)
          | none => some (name, env.latin1decode bytes)
    else
      match env.httpGet att.url with
      | none => none
      | some (status, body) => if status = 200 then some (name, body) else none

/-- `decode_attachment_to_files(attachments)`: fold the per-attachment entries
into a dict. -/
def decode_attachment_to_files (env : Env) (atts : List Attachment) :
    List (String × String) :=
  atts.foldl (fun files att =>
    match attachmentEntry env att with
    | none => files
    | some e => insertFile files e.1 e.2) []

/-- The `requests.get` calls the decoder performs for one attachment: exactly
one for a named, non-empty, non-data url. -/
def attachmentFetchCalls (att : Attachment) : List Call :=
  match att.name with
  | none => []
  | some name =>
    if name = "" ∨ att.url = "" then []
    else if startsWithData att.url then []
    else [Call.fetch att.url]

/-- All fetch calls of a decoding pass, in attachment order. -/
def decodeFetchCalls (atts : List Attachment) : List Call :=
  atts.foldr (fun att acc => attachmentFetchCalls att ++ acc) []

/-! ### `build_default_app_files` (project1.py lines 166-259)

The landing-page template is the rendered Python f-string: the two `{brief}`
interpolation points split it into `htmlPre`, `htmlMid` and `htmlSuffix`
(doubled braces of the f-string render as single braces, written `\x7b`/`\x7d`,
and single quotes as `\x27`). -/

/-- Rendered template up to the `<title>` interpolation of the brief. -/
def htmlPre : String :=
  "<!doctype html>\n<html>\n<head>\n  <meta charset=\"utf-8\"/>\n  <meta name=\"viewport\" content=\"width=device-width,initial-scale=1\"/>\n  <title>"

/-- Rendered template between the `<title>` and `<h1>` interpolations of the brief. -/
def htmlMid : String :=
  "</title>\n  <link href=\"https://cdn.jsdelivr.net/npm/bootstrap@5.3.2/dist/css/bootstrap.min.css\" rel=\"stylesheet\">\n</head>\n<body class=\"p-3\">\n  <main class=\"container\">\n    <h1 id=\"title\">"

/-- Rendered template after the `<h1>` interpolation: static markup. -/
def htmlBody : String :=
  "</h1>\n    <div id=\"app-root\">\n      <div id=\"content\">This page was auto-generated. If the task requires attachments (CSV/MD), place them in the repo root as provided.</div>\n      <div id=\"total-sales\" style=\"display:block; margin-top:1rem;\"></div>\n      <div id=\"markdown-output\" style=\"margin-top:1rem;\"></div>\n      <form id=\"github-user-form\" style=\"margin-top:1rem;\">\n        <input id=\"github-username\" placeholder=\"GitHub username\" />\n        <button type=\"button\" id=\"github-lookup\">Lookup</button>\n      </form>\n      <div id=\"github-created-at\"></div>\n    </div>\n  </main>\n  <script>\n"

/-- Rendered template: the CSV-summing script section. -/
def htmlScriptCsv : String :=
  "  // Try to be permissive: if data.csv exists, compute sum of second column\n  async function trySumCSV() \x7b\n    try \x7b\n      const r = await fetch(\x27data.csv\x27);\n      if (!r.ok) return;\n      const txt = await r.text();\n      const rows = txt.trim().split(/\\r?\\n/).slice(1);\n      let total = 0;\n      rows.forEach(r => \x7b\n        const cols = r.split(\x27,\x27);\n        const val = parseFloat(cols[1]);\n        if (!isNaN(val)) total += val;\n        const tbody = document.querySelector(\x27#product-sales tbody\x27) || null;\n        if (tbody) \x7b\n          // handled elsewhere if needed\n        \x7d\n      \x7d);\n      document.querySelector(\x27#total-sales\x27).textContent = total.toFixed(2);\n    \x7d catch(e)\x7b\x7d\n  \x7d\n  trySumCSV();\n\n"

/-- Rendered template: the markdown-rendering script section. -/
def htmlScriptMd : String :=
  "  // markdown rendering if input.md exists (basic)\n  async function tryMarkdown() \x7b\n    try \x7b\n      const r = await fetch(\x27input.md\x27);\n      if (!r.ok) return;\n      const md = await r.text();\n      // very light markdown -> convert headings to <h> tags (naive)\n      const html = md.replace(/^### (.*$)/gim, \x27<h3>$1</h3>\x27)\n                     .replace(/^## (.*$)/gim, \x27<h2>$1</h2>\x27)\n                     .replace(/^# (.*$)/gim, \x27<h1>$1</h1>\x27)\n                     .replace(/\\*\\*(.*)\\*\\*/gim, \x27<strong>$1</strong>\x27)\n                     .replace(/\\*(.*)\\*/gim, \x27<em>$1</em>\x27)\n                     .replace(/`([^`]+)`/gim, \x27<code>$1</code>\x27)\n                     .replace(/\\n/g, \x27<br/>\x27);\n      document.querySelector(\x27#markdown-output\x27).innerHTML = html;\n    \x7d catch(e)\x7b\x7d\n  \x7d\n  tryMarkdown();\n\n"

/-- Rendered template: the GitHub-user-lookup script section and closing tags. -/
def htmlScriptGh : String :=
  "  // github user lookup\n  document.getElementById(\x27github-lookup\x27)?.addEventListener(\x27click\x27, async () => \x7b\n    const user = document.getElementById(\x27github-username\x27).value.trim();\n    if (!user) return;\n    try \x7b\n      const r = await fetch(`https://api.github.com/users/$\x7buser\x7d`);\n      if (!r.ok) \x7b\n        document.getElementById(\x27github-created-at\x27).textContent = \x27User not found\x27;\n        return;\n      \x7d\n      const data = await r.json();\n      const created = new Date(data.created_at).toISOString().slice(0,10);\n      document.getElementById(\x27github-created-at\x27).textContent = created;\n    \x7d catch(e)\x7b document.getElementById(\x27github-created-at\x27).textContent = \x27Error\x27; \x7d\n  \x7d);\n  </script>\n</body>\n</html>"

/-- Everything of the landing page after the second brief interpolation. -/
def htmlSuffix : String := htmlBody ++ htmlScriptCsv ++ htmlScriptMd ++ htmlScriptGh

/-- The generated `index.html`: the brief is interpolated into the title and
the `h1` heading. -/
def pageHtml (brief : String) : String :=
  htmlPre ++ brief ++ htmlMid ++ brief ++ htmlSuffix

/-- README text before the brief interpolation. -/
def readmePre : String := "# Auto-generated App\n\n**Brief:** "

/-- README text after the brief interpolation. -/
def readmeSuffix : String :=
  "\n\nThis README was created automatically.\n\n## How this repo is structured\n- index.html : main page\n- Any attachments from the task (data.csv, input.md, sample images) are placed in the repo root.\n\nLicense: MIT\n"

/-- The generated `README.md` for a brief. -/
def readmeFor (brief : String) : String := readmePre ++ brief ++ readmeSuffix

/-- `MIT_LICENSE_TEXT` up to the `<YEAR>` placeholder. -/
def mitLicensePre : String := "MIT License\n\nCopyright (c) "

/-- `MIT_LICENSE_TEXT` after the `<AUTHOR>` placeholder. -/
def mitLicensePost : String :=
  "\n\nPermission is hereby granted, free of charge, to any person obtaining a copy\nof this software and associated documentation files (the \"Software\"), to deal\nin the Software without restriction, including without limitation the rights\nto use, copy, modify, merge, publish, distribute, sublicense, and/or sell\ncopies of the Software, and to permit persons to whom the Software is\nfurnished to do so, subject to the following conditions:\n\n... (standard MIT text continues) ...\n\nTHE SOFTWARE IS PROVIDED \"AS IS\", WITHOUT WARRANTY OF ANY KIND, EXPRESS OR\nIMPLIED, INCLUDING BUT NOT LIMITED TO THE WARRANTIES OF MERCHANTABILITY,\nFITNESS FOR A PARTICULAR PURPOSE AND NONINFRINGEMENT. IN NO EVENT SHALL THE\nAUTHORS OR COPYRIGHT HOLDERS BE LIABLE FOR ANY CLAIM, DAMAGES OR OTHER\nLIABILITY, WHETHER IN AN ACTION OF CONTRACT, TORT OR OTHERWISE, ARISING FROM,\nOUT OF OR IN CONNECTION WITH THE SOFTWARE OR THE USE OR OTHER DEALINGS IN\nTHE SOFTWARE.\n"

/-- `MIT_LICENSE_TEXT.replace("<YEAR>", year).replace("<AUTHOR>", author)`:
the template contains each placeholder exactly once, in
`Copyright (c) <YEAR> <AUTHOR>`, so the two replacements amount to splicing
the year and account name into the template. -/
def licenseFor (env : Env) : String :=
  mitLicensePre ++ env.year ++ " " ++ env.username ++ mitLicensePost

/-- The base FileSet dict literal of `build_default_app_files`. -/
def baseFiles (env : Env) (brief : String) : List (String × String) :=
  [("index.html", pageHtml brief), ("README.md", readmeFor brief),
   ("LICENSE", licenseFor env)]

/-- `build_default_app_files(brief, attachments)`: the base files, then
`files.update(decoded)` with the decoded attachments. -/
def build_default_app_files (env : Env) (brief : String) (atts : List Attachment) :
    List (String × String) :=
  (decode_attachment_to_files env atts).foldl
    (fun fs e => insertFile fs e.1 e.2) (baseFiles env brief)

/-! ### `ensure_repo` (project1.py lines 67-85) -/

/-- Initial README committed when a repository is created. -/
def initialReadme : String :=
  "# Auto-generated repo\n\nThis repository was created by Project1 auto-deployer.\n"

/-- `ensure_repo(user, repo_name)`: reuse the repository when `get_repo`
succeeds; otherwise create it and commit the initial README and LICENSE.
Returns the `created` flag and the outbound calls performed. -/
def ensure_repo (env : Env) (repoName : String) : Bool × List Call :=
  if env.repoExists repoName then (false, [Call.getRepo repoName])
  else (true,
    [Call.getRepo repoName, Call.createRepo repoName,
     Call.writeFile ("README.md") initialReadme,
     Call.writeFile ("LICENSE") (licenseFor env)])

/-! ### `enable_github_pages_rest` (project1.py lines 109-134) -/

/-- The pages URL built on a successful activation. -/
def pagesUrlOf (env : Env) (repoName : String) : String :=
  "https://" ++ env.username ++ ".github.io/" ++ repoName ++ "/"

/-- `enable_github_pages_rest(repo)`: POST activation for branch `main` at
path `/`, on non-(201/204) POST again for branch `master`, then GET the
current configuration.  `Except.error` models a `requests` exception
propagating out of the function (none of the three HTTP calls is wrapped in
try/except; only the `r3.json()` parse is, modelled by the inner
`Option (Option String)`). -/
def enable_github_pages_rest (env : Env) (repoName : String) :
    Except Unit (Option String) × List Call :=
  match env.pagesPost ("main") with
  | none => (Except.error (), [Call.pagesEnable ("main") ("/")])
  | some s1 =>
    if s1 = 201 ∨ s1 = 204 then
      (Except.ok (some (pagesUrlOf env repoName)), [Call.pagesEnable ("main") ("/")])
    else
      match env.pagesPost ("master") with
      | none =>
        (Except.error (),
         [Call.pagesEnable ("main") ("/"), Call.pagesEnable ("master") ("/")])
      | some s2 =>
        if s2 = 201 ∨ s2 = 204 then
          (Except.ok (some (pagesUrlOf env repoName)),
           [Call.pagesEnable ("main") ("/"), Call.pagesEnable ("master") ("/")])
        else
          match env.pagesGet with
          | none =>
            (Except.error (),
             [Call.pagesEnable ("main") ("/"), Call.pagesEnable ("master") ("/"),
              Call.pagesRead])
          | some (s3, j) =>
            if s3 = 200 then
              match j with
              | some htmlUrl =>
                (Except.ok htmlUrl,
                 [Call.pagesEnable ("main") ("/"), Call.pagesEnable ("master") ("/"),
                  Call.pagesRead])
              | none =>
                (Except.ok none,
                 [Call.pagesEnable ("main") ("/"), Call.pagesEnable ("master") ("/"),
                  Call.pagesRead])
            else
              (Except.ok none,
               [Call.pagesEnable ("main") ("/"), Call.pagesEnable ("master") ("/"),
                Call.pagesRead])

/-! ### `get_latest_commit_sha` (project1.py lines 96-107) -/

/-- The retry loop of `get_latest_commit_sha`: per try the oracle yields
`some (some sha)` (commits listed), `some none` (empty history) or `none`
(exception); empty history and exception both continue retrying. -/
def shaRun (env : Env) : Nat → Nat → Option String × List Call
  | 0, _ => (none, [])
  | fuel+1, i =>
    match env.commits i with
    | some (some sha) => (some sha, [Call.listCommits])
    | _ =>
      ((shaRun env fuel (i+1)).1, Call.listCommits :: (shaRun env fuel (i+1)).2)

/-- `get_latest_commit_sha(repo)` with the default `max_retries=6`. -/
def get_latest_commit_sha (env : Env) : Option String × List Call := shaRun env 6 0

/-! ### `post_evaluation` (project1.py lines 261-274) -/

/-- The retry loop of `post_evaluation`: `fuel` remaining iterations of
`for attempt in range(6)`, current attempt index and current delay.  Returns
the successful attempt index (or `none` after exhaustion) and the list of
delays slept, in order; the code sleeps after every failed attempt, the last
one included. -/
def postEvalRun (resp : Nat → Option Nat) : Nat → Nat → Nat → Option Nat × List Nat
  | 0, _, _ => (none, [])
  | fuel+1, attempt, delay =>
    if resp attempt = some 200 then (some attempt, [])
    else ((postEvalRun resp fuel (attempt+1) (delay*2)).1,
          delay :: (postEvalRun resp fuel (attempt+1) (delay*2)).2)

/-- `post_evaluation(payload, evaluation_url)`: six loop iterations, initial
delay 1, doubling after each failure.  The oracle maps the attempt index to the
HTTP status of that POST (`none` for a raised exception). -/
def post_evaluation (resp : Nat → Option Nat) : Option Nat × List Nat :=
  postEvalRun resp 6 0 1

/-- Number of POST attempts actually performed: up to and including the
successful one, or every delay-followed failure after exhaustion. -/
def evalAttempts (r : Option Nat × List Nat) : Nat :=
  match r.1 with
  | some i => i + 1
  | none => r.2.length

/-! ### `/task` endpoint (project1.py lines 302-352) -/

/-- `repo.html_url` of the PyGithub repository object. -/
def repoHtmlUrl (env : Env) (repoName : String) : String :=
  "https://github.com/" ++ env.username ++ "/" ++ repoName

/-- The side effects of a `/task` request up to and including the file pushes:
record the task key, append the log line, ensure the repository, decode the
attachments (fetching remote ones) and write every built file. -/
def taskPreCalls (env : Env) (p : TaskRequest) : List Call :=
  [Call.recordTask (p.email, p.task, p.round, p.nonce), Call.logAppend] ++
  (ensure_repo env (deterministic_repo_name p.email p.task)).2 ++
  decodeFetchCalls p.attachments ++
  (build_default_app_files env (if p.brief = "" then p.task else p.brief)
      p.attachments).map (fun f => Call.writeFile f.1 f.2)

/-- `task_endpoint(payload)`: verify the secret (403 on mismatch, before any
side effect), record and log the task, ensure the repository, build and push
the files (`payload.brief or payload.task`), enable pages, read the latest
commit sha, POST the evaluation payload.  A pages-level `requests` exception
escapes the handler (`crash`); evaluation exhaustion raises HTTP 500; otherwise
the status object with the repository and pages URLs is returned. -/
def task_endpoint (env : Env) (p : TaskRequest) : TaskOutcome × List Call :=
  if p.secret ≠ env.secret then
    (TaskOutcome.httpError ⟨403, "Invalid secret"⟩, [])
  else
    match enable_github_pages_rest env (deterministic_repo_name p.email p.task) with
    | (Except.error _, pCalls) => (TaskOutcome.crash, taskPreCalls env p ++ pCalls)
    | (Except.ok pagesUrl, pCalls) =>
      match (post_evaluation env.evalResp).1 with
      | some _ =>
        (TaskOutcome.response
          ⟨"ok", "Task processed",
           repoHtmlUrl env (deterministic_repo_name p.email p.task), pagesUrl⟩,
         taskPreCalls env p ++ pCalls ++ (get_latest_commit_sha env).2 ++
           List.replicate (evalAttempts (post_evaluation env.evalResp)) Call.evalPost)
      | none =>
        (TaskOutcome.httpError ⟨500, "Evaluation POST failed after retries"⟩,
         taskPreCalls env p ++ pCalls ++ (get_latest_commit_sha env).2 ++
           List.replicate (evalAttempts (post_evaluation env.evalResp)) Call.evalPost)

/-- Projection of a call to the file write it performs, if any. -/
def writeOf : Call → Option (String × String)
  | Call.writeFile p c => some (p, c)
  | _ => none

/-- The file writes contained in a call trace, in order. -/
def writesOf (calls : List Call) : List (String × String) := calls.filterMap writeOf

/-- `needle` occurs verbatim as a substring of `haystack`. -/
def occursIn (needle haystack : String) : Prop :=
  ∃ pre post, haystack = pre ++ needle ++ post

/-! ### Concrete environments and payloads used for witnesses -/

/-- Callback endpoint that fails four times and answers 200 on the fifth attempt. -/
def respFifth : Nat → Option Nat := fun i => if i = 4 then some 200 else some 500

/-- Environment whose external world fully cooperates. -/
def envOk : Env where
  secret := "s"
  username := "u"
  year := "2025"
  b64decode := fun s => if s = "aGk=" then some [104, 105] else none
  utf8decode := fun b => if b = [104, 105] then some "hi" else none
  latin1decode := fun _ => ""
  httpGet := fun _ => none
  repoExists := fun _ => true
  pagesPost := fun _ => some 201
  pagesGet := some (200, some (some "x"))
  commits := fun _ => some (some "c0ffee")
  evalResp := fun _ => some 200

/-- Like `envOk` but the evaluation callback always answers 500. -/
def envEvalDown : Env :=
  { envOk with evalResp := fun _ => some 500 }

/-- Like `envOk` but every pages POST raises a transport exception. -/
def envPagesRaise : Env :=
  { envOk with pagesPost := fun _ => none }

/-- Like `envOk` but pages activation is rejected for `main` and accepted for
`master`. -/
def envFallback : Env :=
  { envOk with pagesPost := fun b => if b = "master" then some 201 else some 404 }

/-- A well-formed `/task` payload matching the `envOk` secret. -/
def reqOk : TaskRequest where
  email := "a@b.c"
  secret := "s"
  task := "demo"
  round := 1
  nonce := "n1"
  brief := "Build it"
  checks := []
  evaluation_url := "https://eval.example/notify"
  attachments := []

/-- The same payload with a non-matching secret. -/
def reqBadSecret : TaskRequest := { reqOk with secret := "wrong" }

/-- The same payload with an empty brief. -/
def reqEmptyBrief : TaskRequest := { reqOk with brief := "" }

/-- An attachment with a well-formed data URI (decodes to `hi` under `envOk`). -/
def attGood : Attachment where
  name := some "good.txt"
  url := "data:text/plain;base64,aGk="

/-- An attachment whose data URI has no comma separator. -/
def attBad : Attachment where
  name := some "bad.txt"
  url := "data:no-comma"

/-- An attachment that collides with the generated landing page. -/
def attOverride : Attachment where
  name := some "index.html"
  url := "data:text/html;base64,aGk="

/-! ## Theorems -/

/-! ### Generic helper lemmas -/

theorem str_append_assoc (a b c : String) : a ++ b ++ c = a ++ (b ++ c) := by
  rcases a with ⟨la⟩; rcases b with ⟨lb⟩; rcases c with ⟨lc⟩
  show String.mk ((la ++ lb) ++ lc) = String.mk (la ++ (lb ++ lc))
  rw [List.append_assoc]

theorem str_toList_append (a b : String) : (a ++ b).toList = a.toList ++ b.toList := rfl

theorem toList_asString (l : List Char) : l.asString.toList = l := rfl

theorem all_take_of_all {α : Type} {p : α → Bool} :
    ∀ (n : Nat) (l : List α), l.all p = true → (l.take n).all p = true := by
  intro n l
  induction l generalizing n with
  | nil => intro _; simp
  | cons hd tl ih =>
    intro h
    cases n with
    | zero => simp
    | succ m =>
      simp only [List.all_cons, Bool.and_eq_true] at h
      simp only [List.take_succ_cons, List.all_cons, Bool.and_eq_true]
      exact ⟨h.1, ih m h.2⟩

theorem all_map_eq {α β : Type} (f : α → β) (p : β → Bool) (l : List α) :
    (l.map f).all p = l.all (fun c => p (f c)) := by
  induction l with
  | nil => rfl
  | cons hd tl ih => simp [ih]

/-! ### Character lemmas about `pyLower` -/

theorem toNat_char_ofNat_upper (n : Nat) (h1 : 65 ≤ n) (h2 : n ≤ 90) :
    (Char.ofNat (n + 32)).toNat = n + 32 := by
  interval_cases n <;> decide

theorem toNat_pyLower_upper (c : Char) (h1 : 65 ≤ c.toNat) (h2 : c.toNat ≤ 90) :
    (pyLower c).toNat = c.toNat + 32 := by
  unfold pyLower
  rw [if_pos ⟨h1, h2⟩]
  exact toNat_char_ofNat_upper c.toNat h1 h2

theorem pyLower_not_upper (c : Char) :
    ¬ (65 ≤ (pyLower c).toNat ∧ (pyLower c).toNat ≤ 90) := by
  by_cases h : 65 ≤ c.toNat ∧ c.toNat ≤ 90
  · rw [toNat_pyLower_upper c h.1 h.2]
    omega
  · unfold pyLower
    rw [if_neg h]
    exact h

theorem pyLower_eq_dot_iff (c : Char) : pyLower c = '.' ↔ c = '.' := by
  constructor
  · intro h
    by_cases hc : 65 ≤ c.toNat ∧ c.toNat ≤ 90
    · exfalso
      have := congrArg Char.toNat h
      rw [toNat_pyLower_upper c hc.1 hc.2] at this
      have hdot : ('.').toNat = 46 := by decide
      omega
    · unfold pyLower at h
      rwa [if_neg hc] at h
  · intro h
    subst h
    decide

theorem pyLower_replaceDot (c : Char) :
    pyLower (if c = '.' then '-' else c) = if pyLower c = '.' then '-' else pyLower c := by
  by_cases h : c = '.'
  · subst h; decide
  · rw [if_neg h, if_neg (fun hd => h ((pyLower_eq_dot_iff c).mp hd))]

theorem char_eq_of_toNat_eq {c d : Char} (h : c.toNat = d.toNat) : c = d :=
  Char.ext (UInt32.ext h)

theorem pyIsAlnum_cases (c : Char) (h : pyIsAlnum c = true) :
    (48 ≤ c.toNat ∧ c.toNat ≤ 57) ∨ (65 ≤ c.toNat ∧ c.toNat ≤ 90) ∨
      (97 ≤ c.toNat ∧ c.toNat ≤ 122) := by
  simp only [pyIsAlnum, Bool.or_eq_true, Bool.and_eq_true, decide_eq_true_eq] at h
  rcases h with (h | h) | h
  · exact Or.inl h
  · exact Or.inr (Or.inl h)
  · exact Or.inr (Or.inr h)

theorem isSafeChar_of_toNat (c : Char)
    (h : (97 ≤ c.toNat ∧ c.toNat ≤ 122) ∨ (48 ≤ c.toNat ∧ c.toNat ≤ 57) ∨
      c.toNat = 45 ∨ c.toNat = 95) : isSafeChar c = true := by
  simp only [isSafeChar, Bool.or_eq_true, Bool.and_eq_true, decide_eq_true_eq]
  rcases h with h | h | h | h
  · exact Or.inl (Or.inl (Or.inl h))
  · exact Or.inl (Or.inl (Or.inr h))
  · exact Or.inl (Or.inr h)
  · exact Or.inr h

theorem pyLower_fix (c : Char) (h : ¬ (65 ≤ c.toNat ∧ c.toNat ≤ 90)) :
    pyLower c = c := by
  unfold pyLower
  rw [if_neg h]

theorem isSafeChar_user_char (c : Char)
    (h : pyIsAlnum c = true ∨ c = '-' ∨ c = '_' ∨ c = '.') :
    isSafeChar (pyLower (if c = '.' then '-' else c)) = true := by
  by_cases hdot : c = '.'
  · subst hdot; decide
  · rw [if_neg hdot]
    rcases h with halnum | hdash | hund | hd
    · rcases pyIsAlnum_cases c halnum with hr | hr | hr
      · rw [pyLower_fix c (by omega)]
        exact isSafeChar_of_toNat c (Or.inr (Or.inl hr))
      · apply isSafeChar_of_toNat
        rw [toNat_pyLower_upper c hr.1 hr.2]
        omega
      · rw [pyLower_fix c (by omega)]
        exact isSafeChar_of_toNat c (Or.inl hr)
    · subst hdash; decide
    · subst hund; decide
    · exact absurd hd hdot

theorem isSafeChar_task_char (d : Char)
    (hd : ¬ (65 ≤ d.toNat ∧ d.toNat ≤ 90)) :
    isSafeChar (if pyIsAlnum d || d = '-' || d = '_' then d else '-') = true := by
  by_cases h : (pyIsAlnum d || d = '-' || d = '_') = true
  · rw [if_pos h]
    simp only [Bool.or_eq_true, decide_eq_true_eq] at h
    rcases h with (halnum | hdash) | hund
    · rcases pyIsAlnum_cases d halnum with hr | hr | hr
      · exact isSafeChar_of_toNat d (Or.inr (Or.inl hr))
      · exact absurd hr hd
      · exact isSafeChar_of_toNat d (Or.inl hr)
    · subst hdash; decide
    · subst hund; decide
  · rw [if_neg h]
    decide

theorem map_ext_eq {α β : Type} (f g : α → β) (h : ∀ a, f a = g a) (l : List α) :
    l.map f = l.map g := by
  induction l with
  | nil => rfl
  | cons hd tl ih => simp [h hd, ih]

/-! ### Claim C3: the resolver formula and its empty-task edge case -/

/-- C3 counterexample: the claim states that an empty normalized task segment
degrades the identity to the user segment alone, but the code always joins the
two segments with `-`: for `alice@example.com` and the empty task it returns
`alice-` (with a trailing separator), not `alice`. -/
theorem c3_empty_task_counterexample :
    deterministic_repo_name ("alice@example.com") ("") = "alice-" ∧
    deterministic_repo_name ("alice@example.com") ("") ≠ "alice" ∧
    resolveSpec ("alice@example.com") ("") = "alice" := by
  refine ⟨rfl, ?_, rfl⟩
  decide

/-- C3 (amended): for every email and task, `resolve(email, task)` equals the
concatenation `user ++ "-" ++ task` of the claimed user segment (local part of
the email lowercased, `.` replaced by `-`) and the claimed task segment (task
lowercased, every character that is not alphanumeric, `-` or `_` replaced by
`-`, truncated to 40 characters) — unconditionally, so an empty task segment
yields `user-` with a trailing separator rather than the user segment alone. -/
theorem c3_resolver_formula (email task : String) :
    deterministic_repo_name email task = resolveSpecAmended email task := by
  unfold deterministic_repo_name resolveSpecAmended resolveSpecUser resolveSpecTask
  congr 1
  · congr 1
    rw [List.map_map]
    exact congrArg List.asString (map_ext_eq _ _ pyLower_replaceDot (localPart email))
  · rw [List.map_map]
    rfl

/-- C3 witness: the amended formula at a concrete email and task. -/
theorem c3_resolver_formula_witness :
    deterministic_repo_name ("alice@example.com") ("Tidy Data!") =
      resolveSpecAmended ("alice@example.com") ("Tidy Data!") :=
  c3_resolver_formula ("alice@example.com") ("Tidy Data!")

/-! ### Claim C4: filesystem/URL-safety of the resolved identity -/

/-- C4 counterexample: the claim asserts safety for every input email, but a
`+` in the local part is passed through unchanged: `a+b@x.com` yields the
identity `a+b-t`, which contains `+`. -/
theorem c4_safety_counterexample :
    ((deterministic_repo_name ("a+b@x.com") ("t")).toList.all isSafeChar) = false ∧
    deterministic_repo_name ("a+b@x.com") ("t") = "a+b-t" := by
  exact ⟨by decide, rfl⟩

/-- C4 (amended): the identity consists only of lowercase alphanumerics, `-`
and `_`, provided every character of the email local part is ASCII
alphanumeric (uppercase allowed), `-`, `_` or `.`, and every character of the
task is ASCII.  Outside that scope the code is unsafe: a `+` in the local part
is passed through unsanitized, and a non-ASCII alphanumeric in the task (for
example an accented letter, which Python `isalnum` accepts and Python `lower`
keeps) is likewise passed through into the identity.  The ASCII bound on the
task is not needed by the proof over the model — it delimits the domain on
which `pyLower`/`pyIsAlnum` coincide with the Python built-ins, and hence on
which this theorem speaks for the program. -/
theorem c4_safety (email task : String)
    (h : ∀ c ∈ localPart email, pyIsAlnum c = true ∨ c = '-' ∨ c = '_' ∨ c = '.')
    (_htask : ∀ c ∈ task.toList, c.toNat ≤ 127) :
    ((deterministic_repo_name email task).toList.all isSafeChar) = true := by
  unfold deterministic_repo_name
  rw [str_toList_append, str_toList_append, toList_asString, toList_asString]
  rw [List.all_append, List.all_append]
  simp only [Bool.and_eq_true]
  refine ⟨⟨?_, by decide⟩, ?_⟩
  · rw [all_map_eq]
    rw [List.all_eq_true]
    intro c hc
    exact isSafeChar_user_char c (h c hc)
  · apply all_take_of_all
    rw [all_map_eq, all_map_eq]
    rw [List.all_eq_true]
    intro c _
    exact isSafeChar_task_char (pyLower c) (pyLower_not_upper c)

/-- C4 witness: a concrete email whose local part has uppercase letters and a
dot, and a task with spaces and punctuation, produce a safe identity. -/
theorem c4_safety_witness :
    ((deterministic_repo_name ("A.User@x.com") ("My Task!")).toList.all isSafeChar)
      = true :=
  c4_safety ("A.User@x.com") ("My Task!") (by decide) (by decide)

/-! ### Claim C1: the evaluation retry loop -/

theorem postEvalRun_succ (resp : Nat → Option Nat) (fuel a d : Nat) :
    postEvalRun resp (fuel+1) a d =
      if resp a = some 200 then (some a, [])
      else ((postEvalRun resp fuel (a+1) (d*2)).1,
            d :: (postEvalRun resp fuel (a+1) (d*2)).2) := by
  simp [postEvalRun]

theorem postEvalRun_none_length (resp : Nat → Option Nat) :
    ∀ fuel a d, (postEvalRun resp fuel a d).1 = none →
      (postEvalRun resp fuel a d).2.length = fuel := by
  intro fuel
  induction fuel with
  | zero => intro a d _; rfl
  | succ n ih =>
    intro a d h
    rw [postEvalRun_succ] at h ⊢
    by_cases hr : resp a = some 200
    · rw [if_pos hr] at h
      exact absurd h (by simp)
    · rw [if_neg hr] at h ⊢
      simp only [List.length_cons]
      rw [ih (a+1) (d*2) h]

theorem postEvalRun_some_bounds (resp : Nat → Option Nat) :
    ∀ fuel a d i, (postEvalRun resp fuel a d).1 = some i → i < a + fuel := by
  intro fuel
  induction fuel with
  | zero => intro a d i h; exact absurd h (by simp [postEvalRun])
  | succ n ih =>
    intro a d i h
    rw [postEvalRun_succ] at h
    by_cases hr : resp a = some 200
    · rw [if_pos hr] at h
      simp only [Option.some.injEq] at h
      omega
    · rw [if_neg hr] at h
      have := ih (a+1) (d*2) i h
      omega

theorem postEvalRun_none_of_allFail (resp : Nat → Option Nat)
    (h : ∀ i, resp i ≠ some 200) :
    ∀ fuel a d, (postEvalRun resp fuel a d).1 = none := by
  intro fuel
  induction fuel with
  | zero => intro a d; rfl
  | succ n ih =>
    intro a d
    rw [postEvalRun_succ, if_neg (h a)]
    exact ih (a+1) (d*2)

/-- C1 counterexample: against an endpoint that always answers 500 the code
performs 6 POST attempts, not at most 5 as the claim states, and sleeps the
doubling delays 1, 2, 4, 8, 16, 32 (one after every failed attempt, the last
included). -/
theorem c1_retry_counterexample :
    evalAttempts (post_evaluation (fun _ => some 500)) = 6 ∧
    ¬ evalAttempts (post_evaluation (fun _ => some 500)) ≤ 5 ∧
    post_evaluation (fun _ => some 500) = (none, [1, 2, 4, 8, 16, 32]) := by
  refine ⟨rfl, by decide, rfl⟩

/-- C1 (amended): the notifier makes at most 6 delivery attempts (the loop is
`range(6)`), not 5; and an endpoint that answers non-200 on the first four
attempts and 200 on the fifth yields success on attempt index 4 — five
attempts, no sixth — having slept the doubling delays 1, 2, 4, 8 between the
five attempts. -/
theorem c1_retry_schedule :
    (∀ resp : Nat → Option Nat, evalAttempts (post_evaluation resp) ≤ 6) ∧
    (∀ resp : Nat → Option Nat, (∀ i, i < 4 → resp i ≠ some 200) →
      resp 4 = some 200 → post_evaluation resp = (some 4, [1, 2, 4, 8])) := by
  constructor
  · intro resp
    rcases h : (post_evaluation resp).1 with _ | i
    · have hn : (postEvalRun resp 6 0 1).1 = none := h
      have hl := postEvalRun_none_length resp 6 0 1 hn
      simp only [evalAttempts, post_evaluation, hn, hl]
      omega
    · have hs : (postEvalRun resp 6 0 1).1 = some i := h
      have hb := postEvalRun_some_bounds resp 6 0 1 i hs
      simp only [evalAttempts, h]
      omega
  · intro resp hlt h4
    have eA : postEvalRun resp 2 4 16 = (some 4, []) := by
      show postEvalRun resp (1+1) 4 16 = (some 4, [])
      rw [postEvalRun_succ, if_pos h4]
    have eB : postEvalRun resp 3 3 8 = (some 4, [8]) := by
      show postEvalRun resp (2+1) 3 8 = (some 4, [8])
      rw [postEvalRun_succ, if_neg (hlt 3 (by omega))]
      norm_num
      rw [eA]
      exact ⟨rfl, rfl⟩
    have eC : postEvalRun resp 4 2 4 = (some 4, [4, 8]) := by
      show postEvalRun resp (3+1) 2 4 = (some 4, [4, 8])
      rw [postEvalRun_succ, if_neg (hlt 2 (by omega))]
      norm_num
      rw [eB]
      exact ⟨rfl, rfl⟩
    have eD : postEvalRun resp 5 1 2 = (some 4, [2, 4, 8]) := by
      show postEvalRun resp (4+1) 1 2 = (some 4, [2, 4, 8])
      rw [postEvalRun_succ, if_neg (hlt 1 (by omega))]
      norm_num
      rw [eC]
      exact ⟨rfl, rfl⟩
    show postEvalRun resp (5+1) 0 1 = (some 4, [1, 2, 4, 8])
    rw [postEvalRun_succ, if_neg (hlt 0 (by omega))]
    norm_num
    rw [eD]
    exact ⟨rfl, rfl⟩

/-- C1 witness: the amended schedule at a concrete endpoint that fails four
times and succeeds on the fifth attempt. -/
theorem c1_retry_witness :
    post_evaluation respFifth = (some 4, [1, 2, 4, 8]) :=
  c1_retry_schedule.2 respFifth (by decide) (by decide)

/-! ### Claim C5: per-attachment failure containment in the decoder -/

/-- C5: the decoder is a total function and a failing attachment is dropped
without affecting the rest of the batch: removing an attachment that
contributes no entry leaves the decoded mapping of the others unchanged; and
each of the failure modes named by the claim — data URI without a comma
separator, base64 decode error, fetch exception, fetch status other than
200 — contributes no entry. -/
theorem c5_decoder_containment :
    (∀ (env : Env) (l1 : List Attachment) (bad : Attachment) (l2 : List Attachment),
      attachmentEntry env bad = none →
      decode_attachment_to_files env (l1 ++ bad :: l2) =
        decode_attachment_to_files env (l1 ++ l2)) ∧
    (∀ (env : Env) (att : Attachment), startsWithData att.url = true →
      splitComma att.url = none → attachmentEntry env att = none) ∧
    (∀ (env : Env) (att : Attachment) (encoded : String),
      startsWithData att.url = true → splitComma att.url = some encoded →
      env.b64decode encoded = none → attachmentEntry env att = none) ∧
    (∀ (env : Env) (att : Attachment), startsWithData att.url = false →
      env.httpGet att.url = none → attachmentEntry env att = none) ∧
    (∀ (env : Env) (att : Attachment) (status : Nat) (body : String),
      startsWithData att.url = false → env.httpGet att.url = some (status, body) →
      status ≠ 200 → attachmentEntry env att = none) := by
  refine ⟨?_, ?_, ?_, ?_, ?_⟩
  · intro env l1 bad l2 h
    unfold decode_attachment_to_files
    rw [List.foldl_append, List.foldl_append, List.foldl_cons, h]
  · intro env att hs hc
    unfold attachmentEntry
    cases att.name with
    | none => rfl
    | some name =>
      dsimp only
      by_cases he : name = "" ∨ att.url = ""
      · rw [if_pos he]
      · rw [if_neg he, if_pos hs, hc]
  · intro env att encoded hs hc hb
    unfold attachmentEntry
    cases att.name with
    | none => rfl
    | some name =>
      dsimp only
      by_cases he : name = "" ∨ att.url = ""
      · rw [if_pos he]
      · rw [if_neg he, if_pos hs, hc]
        dsimp only
        rw [hb]
  · intro env att hs hg
    unfold attachmentEntry
    cases att.name with
    | none => rfl
    | some name =>
      dsimp only
      by_cases he : name = "" ∨ att.url = ""
      · rw [if_pos he]
      · rw [if_neg he, if_neg (by rw [hs]; exact Bool.false_ne_true), hg]
  · intro env att status body hs hg h200
    unfold attachmentEntry
    cases att.name with
    | none => rfl
    | some name =>
      dsimp only
      by_cases he : name = "" ∨ att.url = ""
      · rw [if_pos he]
      · rw [if_neg he, if_neg (by rw [hs]; exact Bool.false_ne_true), hg]
        dsimp only
        rw [if_neg h200]

/-- C5 witness: dropping a data URI with no comma separator from a batch
leaves the valid attachment decoded as in the batch without it. -/
theorem c5_decoder_witness :
    decode_attachment_to_files envOk ([attGood] ++ attBad :: []) =
      decode_attachment_to_files envOk ([attGood] ++ []) :=
  c5_decoder_containment.1 envOk [attGood] attBad [] (by decide)

/-! ### Claim C6: the base FileSet of the Content Builder -/

/-- C6: building from any brief with no attachments yields exactly the landing
page, README and license entries (three keys, no others), and the brief occurs
verbatim in the landing-page content and in the README content. -/
theorem c6_build_base (env : Env) (brief : String) :
    keysOf (build_default_app_files env brief []) =
      ["index.html", "README.md", "LICENSE"] ∧
    lookupFile (build_default_app_files env brief []) ("index.html") =
      some (pageHtml brief) ∧
    lookupFile (build_default_app_files env brief []) ("README.md") =
      some (readmeFor brief) ∧
    occursIn brief (pageHtml brief) ∧ occursIn brief (readmeFor brief) := by
  refine ⟨rfl, rfl, rfl, ?_, ?_⟩
  · refine ⟨htmlPre, htmlMid ++ brief ++ htmlSuffix, ?_⟩
    unfold pageHtml
    simp [str_append_assoc]
  · exact ⟨readmePre, readmeSuffix, rfl⟩

/-- C6 witness: the base FileSet keys at a concrete brief. -/
theorem c6_build_base_witness :
    keysOf (build_default_app_files envOk ("Hello") []) =
      ["index.html", "README.md", "LICENSE"] :=
  (c6_build_base envOk ("Hello")).1

/-! ### Claim C7: attachment precedence on path collision -/

theorem lookup_insert_self (fs : List (String × String)) (k v : String) :
    lookupFile (insertFile fs k v) k = some v := by
  induction fs with
  | nil => simp [insertFile, lookupFile]
  | cons hd tl ih =>
    rcases hd with ⟨k₁, v₁⟩
    by_cases h : k₁ = k
    · subst h
      simp [insertFile, lookupFile]
    · simp [insertFile, lookupFile, h, ih]

theorem lookup_insert_ne (fs : List (String × String)) (k k' v : String)
    (h : k' ≠ k) : lookupFile (insertFile fs k' v) k = lookupFile fs k := by
  induction fs with
  | nil => simp [insertFile, lookupFile, h]
  | cons hd tl ih =>
    rcases hd with ⟨k₁, v₁⟩
    by_cases h₁ : k₁ = k'
    · subst h₁
      simp [insertFile, lookupFile, h]
    · simp only [insertFile, if_neg h₁]
      by_cases h₂ : k₁ = k
      · simp [lookupFile, h₂]
      · simp [lookupFile, h₂, ih]

theorem keys_insertFile (fs : List (String × String)) (k v : String) :
    keysOf (insertFile fs k v) =
      if k ∈ keysOf fs then keysOf fs else keysOf fs ++ [k] := by
  induction fs with
  | nil => simp [insertFile, keysOf]
  | cons hd tl ih =>
    rcases hd with ⟨k₁, v₁⟩
    by_cases h : k₁ = k
    · subst h
      simp [insertFile, keysOf]
    · have hne : ¬ k = k₁ := fun hk => h hk.symm
      simp only [insertFile, if_neg h, keysOf, List.map_cons, List.mem_cons]
      simp only [keysOf] at ih
      rw [ih]
      by_cases hm : k ∈ tl.map Prod.fst
      · simp [hm, hne]
      · simp [hm, hne]

theorem lookup_none_of_not_mem (fs : List (String × String)) (k : String)
    (h : k ∉ keysOf fs) : lookupFile fs k = none := by
  induction fs with
  | nil => rfl
  | cons hd tl ih =>
    rcases hd with ⟨k₁, v₁⟩
    simp only [keysOf, List.map_cons, List.mem_cons, not_or] at h
    have : k₁ ≠ k := fun hk => h.1 hk.symm
    simp only [lookupFile, if_neg this]
    exact ih (by simpa [keysOf] using h.2)

theorem nodup_keys_insertFile (fs : List (String × String)) (k v : String)
    (h : (keysOf fs).Nodup) : (keysOf (insertFile fs k v)).Nodup := by
  rw [keys_insertFile]
  by_cases hm : k ∈ keysOf fs
  · rwa [if_pos hm]
  · rw [if_neg hm]
    simp [List.nodup_append, h, hm]

theorem nodup_keys_decode_aux (env : Env) (atts : List Attachment) :
    ∀ acc : List (String × String), (keysOf acc).Nodup →
      (keysOf (atts.foldl (fun files att =>
        match attachmentEntry env att with
        | none => files
        | some e => insertFile files e.1 e.2) acc)).Nodup := by
  induction atts with
  | nil => intro acc h; exact h
  | cons hd tl ih =>
    intro acc h
    rw [List.foldl_cons]
    cases hE : attachmentEntry env hd with
    | none => simp only [hE]; exact ih acc h
    | some e => simp only [hE]; exact ih _ (nodup_keys_insertFile acc e.1 e.2 h)

theorem nodup_keys_decode (env : Env) (atts : List Attachment) :
    (keysOf (decode_attachment_to_files env atts)).Nodup :=
  nodup_keys_decode_aux env atts [] (by simp [keysOf])

theorem lookup_foldl_insert (d : List (String × String)) :
    ∀ (base : List (String × String)) (k : String), (keysOf d).Nodup →
      lookupFile (d.foldl (fun fs e => insertFile fs e.1 e.2) base) k =
        (match lookupFile d k with
         | some v => some v
         | none => lookupFile base k) := by
  induction d with
  | nil => intro base k _; rfl
  | cons hd tl ih =>
    intro base k hnd
    rcases hd with ⟨k₁, v₁⟩
    simp only [keysOf, List.map_cons, List.nodup_cons] at hnd
    rw [List.foldl_cons]
    rw [ih (insertFile base k₁ v₁) k (by simpa [keysOf] using hnd.2)]
    by_cases h : k₁ = k
    · subst h
      have htl : lookupFile tl k₁ = none :=
        lookup_none_of_not_mem tl k₁ (by simpa [keysOf] using hnd.1)
      simp [lookupFile, htl, lookup_insert_self]
    · simp only [lookupFile, if_neg h, lookup_insert_ne base k k₁ v₁ h]

/-- C7: an attachment entry always wins on path collision: whenever the
decoded attachments map a path, the built FileSet maps it to the attachment
content; paths the attachments do not map keep the generated base content. -/
theorem c7_attachment_precedence (env : Env) (brief : String)
    (atts : List Attachment) (p : String) :
    (∀ v, lookupFile (decode_attachment_to_files env atts) p = some v →
      lookupFile (build_default_app_files env brief atts) p = some v) ∧
    (lookupFile (decode_attachment_to_files env atts) p = none →
      lookupFile (build_default_app_files env brief atts) p =
        lookupFile (baseFiles env brief) p) := by
  constructor
  · intro v hv
    unfold build_default_app_files
    rw [lookup_foldl_insert (decode_attachment_to_files env atts)
      (baseFiles env brief) p (nodup_keys_decode env atts), hv]
  · intro hn
    unfold build_default_app_files
    rw [lookup_foldl_insert (decode_attachment_to_files env atts)
      (baseFiles env brief) p (nodup_keys_decode env atts), hn]

/-- C7 witness: an attachment named `index.html` overrides the generated
landing page in the built FileSet. -/
theorem c7_attachment_precedence_witness :
    lookupFile (build_default_app_files envOk ("B") [attOverride]) ("index.html")
      = some "hi" :=
  (c7_attachment_precedence envOk ("B") [attOverride] ("index.html")).1
    "hi" (by decide)

/-! ### Claim C8: secret mismatch rejects with 403 and no side effect -/

/-- C8: when the request secret does not match the configured secret, the
endpoint returns the 403 `Invalid secret` error and the call trace is empty —
no registry entry, no log append, no repository, hosting, notification or
attachment-fetch call. -/
theorem c8_secret_mismatch (env : Env) (p : TaskRequest)
    (h : p.secret ≠ env.secret) :
    task_endpoint env p = (TaskOutcome.httpError ⟨403, "Invalid secret"⟩, []) := by
  unfold task_endpoint
  rw [if_pos h]

/-- C8 witness: a concrete mismatching request is rejected with 403 and an
empty effect trace. -/
theorem c8_secret_mismatch_witness :
    task_endpoint envOk reqBadSecret =
      (TaskOutcome.httpError ⟨403, "Invalid secret"⟩, []) :=
  c8_secret_mismatch envOk reqBadSecret (by decide)

/-! ### Claim C9: hosting activation fallback and its exception behaviour -/

/-- C9 counterexample: the claim says the enabler returns a URL or none
without raising in all cases, including when an activation attempt itself
errors; but the activation POSTs are not guarded, so a transport-level
exception on the first POST propagates out of the function. -/
theorem c9_enabler_counterexample :
    (enable_github_pages_rest envPagesRaise ("r")).1 = Except.error () := rfl

/-- C9 (amended): when the underlying HTTP calls return responses (no
transport exception), the enabler first attempts activation for branch `main`
at the root path and returns the pages URL on 201/204 without touching
`master`; only on a rejected first attempt does it attempt branch `master`;
if both are rejected it reads the hosting configuration and returns its
`html_url` on a 200 read, and none otherwise — but a transport-level exception
in any of the three requests propagates and fails the whole task. -/
theorem c9_enabler_fallback (env : Env) (repoName : String) :
    (∀ s, env.pagesPost ("main") = some s → (s = 201 ∨ s = 204) →
      enable_github_pages_rest env repoName =
        (Except.ok (some (pagesUrlOf env repoName)),
         [Call.pagesEnable ("main") ("/")])) ∧
    (∀ s1 s2, env.pagesPost ("main") = some s1 → ¬(s1 = 201 ∨ s1 = 204) →
      env.pagesPost ("master") = some s2 → (s2 = 201 ∨ s2 = 204) →
      enable_github_pages_rest env repoName =
        (Except.ok (some (pagesUrlOf env repoName)),
         [Call.pagesEnable ("main") ("/"), Call.pagesEnable ("master") ("/")])) ∧
    (∀ s1 s2 j, env.pagesPost ("main") = some s1 → ¬(s1 = 201 ∨ s1 = 204) →
      env.pagesPost ("master") = some s2 → ¬(s2 = 201 ∨ s2 = 204) →
      env.pagesGet = some (200, some j) →
      enable_github_pages_rest env repoName =
        (Except.ok j,
         [Call.pagesEnable ("main") ("/"), Call.pagesEnable ("master") ("/"),
          Call.pagesRead])) ∧
    (∀ s1 s2 s3 j, env.pagesPost ("main") = some s1 → ¬(s1 = 201 ∨ s1 = 204) →
      env.pagesPost ("master") = some s2 → ¬(s2 = 201 ∨ s2 = 204) →
      env.pagesGet = some (s3, j) → s3 ≠ 200 →
      enable_github_pages_rest env repoName =
        (Except.ok none,
         [Call.pagesEnable ("main") ("/"), Call.pagesEnable ("master") ("/"),
          Call.pagesRead])) := by
  refine ⟨?_, ?_, ?_, ?_⟩
  · intro s hm hok
    unfold enable_github_pages_rest
    rw [hm]
    dsimp only
    rw [if_pos hok]
  · intro s1 s2 hm hbad hm2 hok
    unfold enable_github_pages_rest
    rw [hm]
    dsimp only
    rw [if_neg hbad, hm2]
    dsimp only
    rw [if_pos hok]
  · intro s1 s2 j hm hbad hm2 hbad2 hget
    unfold enable_github_pages_rest
    rw [hm]
    dsimp only
    rw [if_neg hbad, hm2]
    dsimp only
    rw [if_neg hbad2, hget]
    dsimp only
    cases j with
    | none => rw [if_pos rfl]
    | some u => rw [if_pos rfl]
  · intro s1 s2 s3 j hm hbad hm2 hbad2 hget h200
    unfold enable_github_pages_rest
    rw [hm]
    dsimp only
    rw [if_neg hbad, hm2]
    dsimp only
    rw [if_neg hbad2, hget]
    dsimp only
    rw [if_neg h200]

/-- C9 witness: with `main` rejected (404) and `master` accepted (201), both
activation attempts appear in order and the pages URL is returned. -/
theorem c9_enabler_fallback_witness :
    enable_github_pages_rest envFallback ("r") =
      (Except.ok (some (pagesUrlOf envFallback ("r"))),
       [Call.pagesEnable ("main") ("/"), Call.pagesEnable ("master") ("/")]) :=
  (c9_enabler_fallback envFallback ("r")).2.1 404 201
    (by decide) (by decide) (by decide) (by decide)

/-! ### Trace lemmas shared by the endpoint claims -/

theorem enable_ok_of_responsive (env : Env) (repoName : String)
    (h1 : env.pagesPost ("main") ≠ none) (h2 : env.pagesPost ("master") ≠ none)
    (h3 : env.pagesGet ≠ none) :
    ∃ u calls, enable_github_pages_rest env repoName = (Except.ok u, calls) := by
  unfold enable_github_pages_rest
  rcases hm : env.pagesPost ("main") with _ | s1
  · exact absurd hm h1
  · dsimp only
    by_cases hs1 : s1 = 201 ∨ s1 = 204
    · rw [if_pos hs1]
      exact ⟨_, _, rfl⟩
    · rw [if_neg hs1]
      rcases hm2 : env.pagesPost ("master") with _ | s2
      · exact absurd hm2 h2
      · dsimp only
        by_cases hs2 : s2 = 201 ∨ s2 = 204
        · rw [if_pos hs2]
          exact ⟨_, _, rfl⟩
        · rw [if_neg hs2]
          rcases hg : env.pagesGet with _ | p3
          · exact absurd hg h3
          · rcases p3 with ⟨s3, j⟩
            dsimp only
            by_cases hs3 : s3 = 200
            · rw [if_pos hs3]
              cases j with
              | none => exact ⟨_, _, rfl⟩
              | some u => exact ⟨_, _, rfl⟩
            · rw [if_neg hs3]
              exact ⟨_, _, rfl⟩

theorem writesOf_append (a b : List Call) :
    writesOf (a ++ b) = writesOf a ++ writesOf b := by
  unfold writesOf
  rw [List.filterMap_append]

theorem writesOf_attachmentFetchCalls (att : Attachment) :
    writesOf (attachmentFetchCalls att) = [] := by
  unfold attachmentFetchCalls
  cases att.name with
  | none => rfl
  | some name =>
    dsimp only
    by_cases he : name = "" ∨ att.url = ""
    · rw [if_pos he]
      rfl
    · rw [if_neg he]
      by_cases hs : startsWithData att.url = true
      · rw [if_pos hs]
        rfl
      · rw [if_neg hs]
        rfl

theorem writesOf_decodeFetchCalls (atts : List Attachment) :
    writesOf (decodeFetchCalls atts) = [] := by
  induction atts with
  | nil => rfl
  | cons hd tl ih =>
    unfold decodeFetchCalls
    rw [List.foldr_cons]
    show writesOf (attachmentFetchCalls hd ++ decodeFetchCalls tl) = []
    rw [writesOf_append, writesOf_attachmentFetchCalls hd, ih]
    rfl

theorem writesOf_replicate_evalPost (n : Nat) :
    writesOf (List.replicate n Call.evalPost) = [] := by
  induction n with
  | zero => rfl
  | succ m ih =>
    rw [List.replicate_succ]
    show writesOf (Call.evalPost :: List.replicate m Call.evalPost) = []
    unfold writesOf at ih ⊢
    rw [List.filterMap_cons]
    exact ih

theorem writesOf_shaRun (env : Env) :
    ∀ fuel i, writesOf (shaRun env fuel i).2 = [] := by
  intro fuel
  induction fuel with
  | zero => intro i; rfl
  | succ n ih =>
    intro i
    unfold shaRun
    rcases hc : env.commits i with _ | inner
    · dsimp only
      unfold writesOf
      rw [List.filterMap_cons]
      exact ih (i+1)
    · cases inner with
      | none =>
        dsimp only
        unfold writesOf
        rw [List.filterMap_cons]
        exact ih (i+1)
      | some sha => rfl

theorem writesOf_sha (env : Env) : writesOf (get_latest_commit_sha env).2 = [] :=
  writesOf_shaRun env 6 0

theorem writesOf_enable (env : Env) (repoName : String) :
    writesOf (enable_github_pages_rest env repoName).2 = [] := by
  unfold enable_github_pages_rest
  rcases env.pagesPost ("main") with _ | s1
  · rfl
  · dsimp only
    by_cases hs1 : s1 = 201 ∨ s1 = 204
    · rw [if_pos hs1]
      rfl
    · rw [if_neg hs1]
      rcases env.pagesPost ("master") with _ | s2
      · rfl
      · dsimp only
        by_cases hs2 : s2 = 201 ∨ s2 = 204
        · rw [if_pos hs2]
          rfl
        · rw [if_neg hs2]
          rcases env.pagesGet with _ | p3
          · rfl
          · rcases p3 with ⟨s3, j⟩
            dsimp only
            by_cases hs3 : s3 = 200
            · rw [if_pos hs3]
              cases j with
              | none => rfl
              | some u => rfl
            · rw [if_neg hs3]
              rfl

theorem writesOf_map_writeFile (files : List (String × String)) :
    writesOf (files.map (fun f => Call.writeFile f.1 f.2)) = files := by
  induction files with
  | nil => rfl
  | cons hd tl ih =>
    rw [List.map_cons]
    unfold writesOf at ih ⊢
    rw [List.filterMap_cons]
    dsimp only [writeOf]
    rw [ih]

/-! ### Claim C2: notification exhaustion and the final response -/

/-- C2 counterexample: with the repository work fully completed and the
evaluation callback always answering 500, the endpoint raises the 500
`HTTPException` — the final response carries only that failure detail, so the
repository-provisioning success (repo and pages URLs) does not appear in the
response, contrary to the claim; the writes were nevertheless performed. -/
theorem c2_response_counterexample :
    (task_endpoint envEvalDown reqOk).1 =
      TaskOutcome.httpError ⟨500, "Evaluation POST failed after retries"⟩ ∧
    (writesOf (task_endpoint envEvalDown reqOk).2).map Prod.fst =
      ["index.html", "README.md", "LICENSE"] := by
  exact ⟨rfl, rfl⟩

/-- C2 (amended): when provisioning completed and the notifier exhausts all
attempts without a 200, the endpoint raises `HTTPException(500)` — a handled
client-visible error, not a process crash, and the completed repository writes
are not undone (every built file write remains in the effect trace) — but the
500 response carries only the failure detail: the repository-provisioning
success does not appear in the final response. -/
theorem c2_notification_exhaustion (env : Env) (p : TaskRequest)
    (hs : p.secret = env.secret)
    (h1 : env.pagesPost ("main") ≠ none) (h2 : env.pagesPost ("master") ≠ none)
    (h3 : env.pagesGet ≠ none)
    (hev : ∀ i, env.evalResp i ≠ some 200) :
    (task_endpoint env p).1 =
      TaskOutcome.httpError ⟨500, "Evaluation POST failed after retries"⟩ ∧
    ∀ f ∈ build_default_app_files env (if p.brief = "" then p.task else p.brief)
        p.attachments,
      Call.writeFile f.1 f.2 ∈ (task_endpoint env p).2 := by
  obtain ⟨u, calls, he⟩ :=
    enable_ok_of_responsive env (deterministic_repo_name p.email p.task) h1 h2 h3
  have hevn : (post_evaluation env.evalResp).1 = none :=
    postEvalRun_none_of_allFail env.evalResp hev 6 0 1
  have hne : ¬ p.secret ≠ env.secret := fun hx => hx hs
  constructor
  · unfold task_endpoint
    rw [if_neg hne, he]
    dsimp only
    rw [hevn]
  · intro f hf
    unfold task_endpoint
    rw [if_neg hne, he]
    dsimp only
    rw [hevn]
    dsimp only
    have hmem : Call.writeFile f.1 f.2 ∈ taskPreCalls env p := by
      unfold taskPreCalls
      simp only [List.mem_append]
      exact Or.inr (List.mem_map_of_mem _ hf)
    simp only [List.mem_append]
    exact Or.inl (Or.inl (Or.inl hmem))

/-- C2 witness: the amended behaviour at a concrete cooperative environment
whose evaluation callback always answers 500. -/
theorem c2_notification_exhaustion_witness :
    (task_endpoint envEvalDown reqEmptyBrief).1 =
      TaskOutcome.httpError ⟨500, "Evaluation POST failed after retries"⟩ := by
  have hev : ∀ i, envEvalDown.evalResp i ≠ some 200 := by
    intro i
    show some 500 ≠ some 200
    decide
  exact (c2_notification_exhaustion envEvalDown reqEmptyBrief rfl (by decide)
    (by decide) (by decide) hev).1

/-! ### Claim C10: empty brief falls back to the task name -/

/-- C10: for an accepted request with an empty brief, the pushed file set is
exactly `build_default_app_files` applied to the task name (Python
`payload.brief or payload.task`), and the generated landing page and README
are templated with the task name, which occurs verbatim in both. -/
theorem c10_empty_brief (env : Env) (p : TaskRequest)
    (hs : p.secret = env.secret) (hb : p.brief = "")
    (hr : env.repoExists (deterministic_repo_name p.email p.task) = true) :
    writesOf (task_endpoint env p).2 =
      build_default_app_files env p.task p.attachments ∧
    occursIn p.task (pageHtml p.task) ∧ occursIn p.task (readmeFor p.task) := by
  refine ⟨?_, ?_, ?_⟩
  · have hne : ¬ p.secret ≠ env.secret := fun hx => hx hs
    have hpre : writesOf (taskPreCalls env p) =
        build_default_app_files env p.task p.attachments := by
      unfold taskPreCalls
      rw [writesOf_append, writesOf_append, writesOf_append]
      rw [hb, if_pos rfl]
      unfold ensure_repo
      rw [if_pos hr]
      rw [writesOf_decodeFetchCalls, writesOf_map_writeFile]
      rfl
    have hcalls := writesOf_enable env (deterministic_repo_name p.email p.task)
    rcases he : enable_github_pages_rest env (deterministic_repo_name p.email p.task)
      with ⟨res, calls⟩
    rw [he] at hcalls
    unfold task_endpoint
    rw [if_neg hne, he]
    cases res with
    | error e =>
      dsimp only
      rw [writesOf_append, hpre, hcalls, List.append_nil]
    | ok u =>
      dsimp only
      rcases hev : (post_evaluation env.evalResp).1 with _ | i
      · dsimp only
        rw [writesOf_append, writesOf_append, writesOf_append, hpre, hcalls,
          writesOf_sha env, writesOf_replicate_evalPost,
          List.append_nil, List.append_nil, List.append_nil]
      · dsimp only
        rw [writesOf_append, writesOf_append, writesOf_append, hpre, hcalls,
          writesOf_sha env, writesOf_replicate_evalPost,
          List.append_nil, List.append_nil, List.append_nil]
  · refine ⟨htmlPre, htmlMid ++ p.task ++ htmlSuffix, ?_⟩
    unfold pageHtml
    simp [str_append_assoc]
  · exact ⟨readmePre, readmeSuffix, rfl⟩

/-- C10 witness: a concrete empty-brief request pushes exactly the file set
built from its task name. -/
theorem c10_empty_brief_witness :
    writesOf (task_endpoint envOk reqEmptyBrief).2 =
      build_default_app_files envOk reqEmptyBrief.task reqEmptyBrief.attachments :=
  (c10_empty_brief envOk reqEmptyBrief rfl rfl (by decide)).1

end Project1
